import Mathlib

/-!
Verification of the subvolume extraction / 2D-projection pipeline
(`src/tomo_scripts/subvol_extract_project2D.py`).

The Python functions are shallowly embedded: numpy arrays become a dynamic
shape plus a total indexing function over integer samples, fallible code
returns `Except PyErr`, and Python `max(0, a - b)` on naturals is modelled
by truncated subtraction.  The `float32` casts of the script are
value-preserving in this integer-sample model.
-/

set_option autoImplicit false

namespace TomoScripts

/-- Error values standing for the exceptions the script raises:
`shapeErr` for the rank/shape `ValueError`s, `invalidParam` for the
`--n must be >= 1` `ValueError`, `missingColumn` for the missing
`rlnImageName` `ValueError`, and `indexErr` / `valueErr` for the
`IndexError` / `ValueError` escaping `get_coordinates`. -/
inductive PyErr where
  | shapeErr
  | invalidParam
  | missingColumn
  | indexErr
  | valueErr
  deriving DecidableEq

/-- A numpy ndarray: a dynamic shape plus a total indexing function
(multi-index to sample value; indices outside the shape are junk the
modelled code never reads). -/
structure NpArr where
  shape : List ℕ
  data : List ℕ → ℤ

/-- The two-stage slice-window rule of `project_subvolumes_to_2d`
(source lines 60-64): `n_eff = min(n, z_size)`, `middle_z = z_size // 2`,
`start_z = max(0, middle_z - n_eff // 2)`, `end_z = min(z_size, start_z + n_eff)`,
then the re-clamp `start_z = max(0, end_z - n_eff)`.  Truncated `Nat`
subtraction models the `max(0, _)` clamps.  This runs only after the
`n <= 0` guard, so `Int.toNat` agrees with the Python value of `n`.
Returns the final `(start_z, end_z)`. -/
def projWindow (n : ℤ) (z_size : ℕ) : ℕ × ℕ :=
  let n_eff : ℕ := min n.toNat z_size
  let middle_z := z_size / 2
  let start_z := middle_z - n_eff / 2
  let end_z := min z_size (start_z + n_eff)
  (end_z - n_eff, end_z)

/-- `project_subvolumes_to_2d` (source lines 53-66): the rank guard, the
`--n` guard, then the elementwise sum of the selected slices along the
first axis. -/
def project_subvolumes_to_2d (subvolume : NpArr) (n : ℤ) : Except PyErr NpArr :=
  match subvolume.shape with
  | [z_size, h, w] =>
    if n ≤ 0 then .error .invalidParam
    else
      .ok ⟨[h, w], fun idx =>
        ∑ k in Finset.Ico (projWindow n z_size).1 (projWindow n z_size).2,
          subvolume.data (k :: idx)⟩
  | _ => .error .shapeErr

/-- C1: for every 3D subvolume of first-axis extent `z ≥ 1` and every slice
count `n ≥ 1`, the two-stage rule selects a window of exactly `min n z`
slices lying inside the volume, and the projector returns the elementwise
sum of exactly those slices along the first axis. -/
theorem projector_full_window (z h w : ℕ) (data : List ℕ → ℤ) (n : ℤ)
    (hz : 1 ≤ z) (hn : 1 ≤ n) :
    (projWindow n z).2 - (projWindow n z).1 = min n.toNat z ∧
    (projWindow n z).2 ≤ z ∧
    project_subvolumes_to_2d ⟨[z, h, w], data⟩ n =
      .ok ⟨[h, w], fun idx =>
        ∑ k in Finset.Ico (projWindow n z).1 (projWindow n z).2, data (k :: idx)⟩ := by
  refine ⟨?_, ?_, ?_⟩
  · simp only [projWindow]
    omega
  · simp only [projWindow]
    omega
  · simp only [project_subvolumes_to_2d, if_neg (by omega : ¬ n ≤ 0)]

/-- Witness for C1 at `z = 3`, `n = 2`. -/
theorem projector_full_window_witness :
    (projWindow 2 3).2 - (projWindow 2 3).1 = min (2 : ℤ).toNat 3 ∧
    (projWindow 2 3).2 ≤ 3 ∧
    project_subvolumes_to_2d ⟨[3, 2, 2], fun _ => 1⟩ 2 =
      .ok ⟨[2, 2], fun idx =>
        ∑ k in Finset.Ico (projWindow 2 3).1 (projWindow 2 3).2,
          (fun _ => (1 : ℤ)) (k :: idx)⟩ :=
  projector_full_window 3 2 2 (fun _ => 1) 2 (by decide) (by decide)

/-- C7 (amended): the rank check precedes the slice-count check, so a
non-3D input fails with the shape error regardless of `n`; a 3D input
fails with `InvalidParameterError` exactly when `n ≤ 0`, and succeeds for
every `n ≥ 1`. -/
theorem projector_failure_order (a : NpArr) (n : ℤ) :
    (a.shape.length ≠ 3 → project_subvolumes_to_2d a n = .error .shapeErr) ∧
    (a.shape.length = 3 → n ≤ 0 → project_subvolumes_to_2d a n = .error .invalidParam) ∧
    (a.shape.length = 3 → 1 ≤ n → ∃ r, project_subvolumes_to_2d a n = .ok r) := by
  obtain ⟨shape, data⟩ := a
  rcases shape with _ | ⟨z, _ | ⟨h, _ | ⟨w, _ | rest⟩⟩⟩
  · exact ⟨fun _ => rfl, by intro hlen; simp at hlen, by intro hlen; simp at hlen⟩
  · exact ⟨fun _ => rfl, by intro hlen; simp at hlen, by intro hlen; simp at hlen⟩
  · exact ⟨fun _ => rfl, by intro hlen; simp at hlen, by intro hlen; simp at hlen⟩
  · refine ⟨fun hlen => absurd rfl hlen, fun _ hn => ?_, fun _ hn => ?_⟩
    · simp only [project_subvolumes_to_2d, if_pos hn]
    · exact ⟨_, by simp only [project_subvolumes_to_2d, if_neg (by omega : ¬ n ≤ 0)]; rfl⟩
  · exact ⟨fun _ => rfl, by intro hlen; simp at hlen, by intro hlen; simp at hlen⟩

/-- Counterexample to C7 as stated: on a 2D input with `n = 0` the code
raises the shape error, not `InvalidParameterError`, although `n ≤ 0`. -/
theorem projector_failure_order_cx :
    project_subvolumes_to_2d ⟨[2, 2], fun _ => 0⟩ 0 = .error .shapeErr ∧
    (Except.error PyErr.shapeErr : Except PyErr NpArr) ≠ .error .invalidParam :=
  ⟨rfl, by intro hcontra; injection hcontra with hcontra; exact PyErr.noConfusion hcontra⟩

/-- Witness for C7 (amended) on a 2D input and on a 3D input. -/
theorem projector_failure_order_witness :
    project_subvolumes_to_2d ⟨[2, 2], fun _ => 0⟩ 5 = .error .shapeErr ∧
    (∃ r, project_subvolumes_to_2d ⟨[1, 1, 1], fun _ => 0⟩ 5 = .ok r) :=
  ⟨(projector_failure_order ⟨[2, 2], fun _ => 0⟩ 5).1 (by decide),
   (projector_failure_order ⟨[1, 1, 1], fun _ => 0⟩ 5).2.2 (by decide) (by decide)⟩

/-! ### Extraction mode: `extract_and_write` (source lines 98-122) -/

/-- A tomogram volume: a 3D numpy array with axis order `(z, y, x)`. -/
structure Tomogram where
  dimz : ℕ
  dimy : ℕ
  dimx : ℕ
  data : ℕ → ℕ → ℕ → ℤ

/-- A particle coordinate `(x, y, z)` as parsed from a coordinate file. -/
def Coord := ℚ × ℚ × ℚ

/-- Python `int(_)` on a (rational-valued) float: truncation toward zero. -/
def pyInt (q : ℚ) : ℤ :=
  if 0 ≤ q then ⌊q⌋ else -⌊-q⌋

/-- Normalisation of a basic-slice endpoint by numpy: a negative index
counts from the end (clamped below at 0), a nonnegative one is clamped
above at the axis extent. -/
def npSliceStart (dim : ℕ) (i : ℤ) : ℕ :=
  if i < 0 then ((dim : ℤ) + i).toNat else min i.toNat dim

/-- Length of the numpy basic slice `a[lo:hi]` along an axis of extent `dim`. -/
def npSliceLen (dim : ℕ) (lo hi : ℤ) : ℕ :=
  npSliceStart dim hi - npSliceStart dim lo

/-- The per-axis slice bounds of `extract_and_write` (source lines 103-108):
`int(center) - box_size // 2` and `int(center) + box_size // 2`. -/
def sliceBounds (center : ℚ) (box_size : ℕ) : ℤ × ℤ :=
  (pyInt center - ((box_size / 2 : ℕ) : ℤ), pyInt center + ((box_size / 2 : ℕ) : ℤ))

/-- Shape of `volume[nz1:nz2, ny1:ny2, nx1:nx2]` (source line 110): the
first tuple component is x, the second y, the third z, and the volume's
first axis is z. -/
def sliceShape (volume : Tomogram) (line : Coord) (box_size : ℕ) : ℕ × ℕ × ℕ :=
  (npSliceLen volume.dimz (sliceBounds line.2.2 box_size).1 (sliceBounds line.2.2 box_size).2,
   npSliceLen volume.dimy (sliceBounds line.2.1 box_size).1 (sliceBounds line.2.1 box_size).2,
   npSliceLen volume.dimx (sliceBounds line.1 box_size).1 (sliceBounds line.1 box_size).2)

/-- The samples of the extracted slice `volume[nz1:nz2, ny1:ny2, nx1:nx2]`. -/
def sliceData (volume : Tomogram) (line : Coord) (box_size : ℕ) : ℕ → ℕ → ℕ → ℤ :=
  fun i j k =>
    volume.data (npSliceStart volume.dimz (sliceBounds line.2.2 box_size).1 + i)
                (npSliceStart volume.dimy (sliceBounds line.2.1 box_size).1 + j)
                (npSliceStart volume.dimx (sliceBounds line.1 box_size).1 + k)

/-- The samples persisted for an accepted subvolume (source line 113):
`subvol * -1`, the `float32` cast being value-preserving here. -/
def persistedData (volume : Tomogram) (line : Coord) (box_size : ℕ) : ℕ → ℕ → ℕ → ℤ :=
  fun i j k => sliceData volume line box_size i j k * (-1)

/-- The acceptance test of source line 111:
`subvol.shape == (box_size, box_size, box_size)`. -/
def accepted (volume : Tomogram) (box_size : ℕ) (line : Coord) : Bool :=
  decide (sliceShape volume line box_size = (box_size, box_size, box_size))

/-- Python `str.zfill`: left-pad with `'0'` to the given width. -/
def zfill (width : ℕ) (s : String) : String :=
  String.mk (List.replicate (width - s.length) '0') ++ s

/-- The output filename of source lines 114-115:
`tomoname + '_' + pid + '_' + str(pnum).zfill(4) + '.mrc'`. -/
def subvolFilename (tomoname pid : String) (pnum : ℕ) : String :=
  tomoname ++ "_" ++ pid ++ "_" ++ zfill 4 (Nat.repr pnum) ++ ".mrc"

/-- The loop of `extract_and_write` (source lines 100-122), carrying the
running sequence counter `pnum`: accepted coordinates produce a
`(filename, coordinate)` record and bump the counter, rejected ones do
neither. -/
def extract_go (volume : Tomogram) (tomoname pid : String) (box_size : ℕ) :
    List Coord → ℕ → List (String × Coord)
  | [], _ => []
  | line :: rest, pnum =>
    if accepted volume box_size line then
      (subvolFilename tomoname pid pnum, line) :: extract_go volume tomoname pid box_size rest (pnum + 1)
    else
      extract_go volume tomoname pid box_size rest pnum

/-- `extract_and_write` (source lines 98-122): the counter starts at 1. -/
def extract_and_write (coords : List Coord) (volume : Tomogram)
    (tomoname pid : String) (box_size : ℕ) : List (String × Coord) :=
  extract_go volume tomoname pid box_size coords 1

lemma extract_go_eq (volume : Tomogram) (tomoname pid : String) (box_size : ℕ)
    (coords : List Coord) (pnum : ℕ) :
    extract_go volume tomoname pid box_size coords pnum =
      (List.enumFrom pnum (coords.filter (accepted volume box_size))).map
        (fun q => (subvolFilename tomoname pid q.1, q.2)) := by
  induction coords generalizing pnum with
  | nil => rfl
  | cons line rest ih =>
    cases hacc : accepted volume box_size line with
    | true => simp [extract_go, hacc, List.filter_cons, List.enumFrom, ih]
    | false => simp [extract_go, hacc, List.filter_cons, ih]

/-- C3: a coordinate whose extracted slice shape differs from
`(box, box, box)` is skipped silently: the written records are exactly one
per accepted coordinate, in order, numbered consecutively from 1 (the
number zero-padded to 4 digits inside the filename), so skipped
coordinates consume no sequence number and numbering is compacted. -/
theorem extraction_skips_compact_numbering (coords : List Coord) (volume : Tomogram)
    (tomoname pid : String) (box_size : ℕ) :
    extract_and_write coords volume tomoname pid box_size =
      (List.enumFrom 1 (coords.filter (accepted volume box_size))).map
        (fun q => (subvolFilename tomoname pid q.1, q.2)) :=
  extract_go_eq volume tomoname pid box_size coords 1

/-- C4: every accepted subvolume is persisted as the extracted slice
multiplied by `-1`, and this inversion is an involution: negating the
persisted samples again reproduces the extracted slice. -/
theorem contrast_inversion_involution (volume : Tomogram) (line : Coord)
    (box_size : ℕ) (i j k : ℕ) :
    persistedData volume line box_size i j k = -(sliceData volume line box_size i j k) ∧
    -(persistedData volume line box_size i j k) = sliceData volume line box_size i j k := by
  constructor
  · simp [persistedData]
  · simp [persistedData]

lemma axisLen_of_interior (dim box_size : ℕ) (q : ℚ) (hb : box_size % 2 = 0)
    (h1 : (box_size : ℚ) / 2 ≤ q) (h2 : q < (dim : ℚ) - (box_size : ℚ) / 2) :
    npSliceLen dim (sliceBounds q box_size).1 (sliceBounds q box_size).2 = box_size := by
  obtain ⟨b2, rfl⟩ : ∃ b2, box_size = 2 * b2 := ⟨box_size / 2, by omega⟩
  have hdiv : 2 * b2 / 2 = b2 := by omega
  have hcast : ((2 * b2 : ℕ) : ℚ) / 2 = (b2 : ℚ) := by push_cast; ring
  rw [hcast] at h1 h2
  have hq0 : (0 : ℚ) ≤ q := le_trans (by positivity) h1
  have hpy : pyInt q = ⌊q⌋ := if_pos hq0
  have hlow : (b2 : ℤ) ≤ ⌊q⌋ := Int.le_floor.mpr (by exact_mod_cast h1)
  have hhigh : ⌊q⌋ < (dim : ℤ) - (b2 : ℤ) := by
    rw [Int.floor_lt]
    push_cast
    linarith
  simp only [npSliceLen, npSliceStart, sliceBounds, hpy, hdiv]
  split_ifs <;> omega

/-- C2 (amended): for every even box size `b` and every coordinate whose
value on each axis lies in `[b/2, dim - b/2)` for that axis's extent, the
extracted slice has shape exactly `(b, b, b)` and the subvolume is
accepted. -/
theorem interior_even_box_accepted (volume : Tomogram) (line : Coord) (box_size : ℕ)
    (hb : box_size % 2 = 0)
    (hx1 : (box_size : ℚ) / 2 ≤ line.1) (hx2 : line.1 < (volume.dimx : ℚ) - (box_size : ℚ) / 2)
    (hy1 : (box_size : ℚ) / 2 ≤ line.2.1) (hy2 : line.2.1 < (volume.dimy : ℚ) - (box_size : ℚ) / 2)
    (hz1 : (box_size : ℚ) / 2 ≤ line.2.2) (hz2 : line.2.2 < (volume.dimz : ℚ) - (box_size : ℚ) / 2) :
    sliceShape volume line box_size = (box_size, box_size, box_size) ∧
    accepted volume box_size line = true := by
  have hshape : sliceShape volume line box_size = (box_size, box_size, box_size) := by
    simp only [sliceShape]
    rw [axisLen_of_interior volume.dimz box_size line.2.2 hb hz1 hz2,
        axisLen_of_interior volume.dimy box_size line.2.1 hb hy1 hy2,
        axisLen_of_interior volume.dimx box_size line.1 hb hx1 hx2]
  exact ⟨hshape, by simp [accepted, hshape]⟩

/-- Witness for C2 (amended): box 20, a 100-cubed tomogram, coordinate
`(50, 50, 50)`. -/
theorem interior_even_box_accepted_witness :
    sliceShape ⟨100, 100, 100, fun _ _ _ => 0⟩ ((50 : ℚ), (50 : ℚ), (50 : ℚ)) 20 = (20, 20, 20) ∧
    accepted ⟨100, 100, 100, fun _ _ _ => 0⟩ 20 ((50 : ℚ), (50 : ℚ), (50 : ℚ)) = true :=
  interior_even_box_accepted ⟨100, 100, 100, fun _ _ _ => 0⟩ ((50 : ℚ), (50 : ℚ), (50 : ℚ)) 20
    (by decide) (by norm_num) (by norm_num) (by norm_num) (by norm_num) (by norm_num) (by norm_num)

/-- Counterexample to C2 as stated: box size 3 (odd) on a 100-cubed
tomogram with the coordinate `(50, 50, 50)` strictly inside
`[3/2, 100 - 3/2)` on every axis, yet the slice has shape `(2, 2, 2)` and
the subvolume is rejected. -/
theorem interior_box_accepted_cx :
    ((3 : ℚ) / 2 ≤ 50 ∧ (50 : ℚ) < 100 - 3 / 2) ∧
    sliceShape ⟨100, 100, 100, fun _ _ _ => 0⟩ ((50 : ℚ), (50 : ℚ), (50 : ℚ)) 3 = (2, 2, 2) ∧
    sliceShape ⟨100, 100, 100, fun _ _ _ => 0⟩ ((50 : ℚ), (50 : ℚ), (50 : ℚ)) 3 ≠ (3, 3, 3) ∧
    accepted ⟨100, 100, 100, fun _ _ _ => 0⟩ 3 ((50 : ℚ), (50 : ℚ), (50 : ℚ)) = false := by
  refine ⟨⟨by norm_num, by norm_num⟩, ?_, ?_, ?_⟩
  · decide
  · decide
  · decide

/-! ### Projection-only mode: `load_subvolumes_from_star` (source lines 160-204) -/

/-- The metadata table handed to `load_subvolumes_from_star`: each optional
field is `none` when the column is absent.  A well-formed table has every
present column of length `nrows`. -/
structure StarDF where
  nrows : ℕ
  imageName : Option (List String)
  coordX : Option (List ℚ)
  coordY : Option (List ℚ)
  coordZ : Option (List ℚ)
  tomoName : Option (List String)
  micrographName : Option (List String)

/-- The metadata part of `load_subvolumes_from_star` (source lines 168-186):
the required `rlnImageName` column, per-column zero defaults for the
coordinates, and the `rlnTomoName` / `rlnMicrographName` / empty-string
fallback for the per-row name. -/
def load_star_meta (df : StarDF) :
    Except PyErr (List String × List Coord × List String) :=
  match df.imageName with
  | none => .error .missingColumn
  | some image_names =>
    let xs := df.coordX.getD (List.replicate df.nrows 0)
    let ys := df.coordY.getD (List.replicate df.nrows 0)
    let zs := df.coordZ.getD (List.replicate df.nrows 0)
    let coords := List.zip xs (List.zip ys zs)
    let tomo_names :=
      match df.tomoName with
      | some t => t
      | none =>
        match df.micrographName with
        | some m => m
        | none => List.replicate df.nrows ""
    .ok (image_names, coords, tomo_names)

lemma zip_replicate_zero (n : ℕ) :
    List.zip (List.replicate n (0 : ℚ))
      (List.zip (List.replicate n (0 : ℚ)) (List.replicate n (0 : ℚ))) =
      List.replicate n (((0 : ℚ), (0 : ℚ), (0 : ℚ)) : Coord) := by
  induction n with
  | zero => rfl
  | succ m ih => simp only [List.replicate, List.zip_cons_cons, ih]

/-- C5: the loader fails with `MissingColumnError` exactly when the table
lacks `rlnImageName`; with that column present, absent coordinate columns
default every row's coordinates to `0.0`, and the per-row name comes from
`rlnTomoName`, falling back to `rlnMicrographName`, falling back to the
empty string. -/
theorem star_loader_column_defaults (df : StarDF) :
    (df.imageName = none → load_star_meta df = .error .missingColumn) ∧
    (∀ image_names, df.imageName = some image_names →
      (df.coordX = none → df.coordY = none → df.coordZ = none →
        ∃ tomo_names, load_star_meta df =
          .ok (image_names, List.replicate df.nrows ((0 : ℚ), (0 : ℚ), (0 : ℚ)), tomo_names)) ∧
      (∀ t, df.tomoName = some t →
        ∃ coords, load_star_meta df = .ok (image_names, coords, t)) ∧
      (df.tomoName = none → ∀ m, df.micrographName = some m →
        ∃ coords, load_star_meta df = .ok (image_names, coords, m)) ∧
      (df.tomoName = none → df.micrographName = none →
        ∃ coords, load_star_meta df =
          .ok (image_names, coords, List.replicate df.nrows ""))) := by
  constructor
  · intro hnone
    simp only [load_star_meta, hnone]
  · intro image_names hsome
    refine ⟨?_, ?_, ?_, ?_⟩
    · intro hx hy hz
      exact ⟨_, by simp only [load_star_meta, hsome, hx, hy, hz, Option.getD_none,
        zip_replicate_zero]; rfl⟩
    · intro t ht
      exact ⟨_, by simp only [load_star_meta, hsome, ht]; rfl⟩
    · intro hT m hm
      exact ⟨_, by simp only [load_star_meta, hsome, hT, hm]; rfl⟩
    · intro hT hm
      exact ⟨_, by simp only [load_star_meta, hsome, hT, hm]; rfl⟩

/-- Witness for C5: a two-row table with only `rlnImageName`, and a table
lacking `rlnImageName`. -/
theorem star_loader_column_defaults_witness :
    load_star_meta ⟨2, none, none, none, none, none, none⟩ = .error .missingColumn ∧
    (∃ tomo_names, load_star_meta ⟨2, some ["a.mrc", "b.mrc"], none, none, none, none, none⟩ =
      .ok (["a.mrc", "b.mrc"],
           List.replicate 2 ((0 : ℚ), (0 : ℚ), (0 : ℚ)), tomo_names)) :=
  ⟨(star_loader_column_defaults ⟨2, none, none, none, none, none, none⟩).1 rfl,
   ((star_loader_column_defaults ⟨2, some ["a.mrc", "b.mrc"], none, none, none, none, none⟩).2
      ["a.mrc", "b.mrc"] rfl).1 rfl rfl rfl⟩

/-- Rank handling for each loaded subvolume file (source lines 195-202):
a 3D array is kept, a 4D array with leading extent 1 collapses to 3D by
dropping the leading axis, anything else raises the shape `ValueError`. -/
def coerce_subvolume (arr : NpArr) : Except PyErr NpArr :=
  if arr.shape.length = 3 then .ok arr
  else if arr.shape.length = 4 ∧ arr.shape.headD 0 = 1 then
    .ok ⟨arr.shape.tail, fun idx => arr.data (0 :: idx)⟩
  else .error .shapeErr

/-- C6: a loaded array is accepted when 3D, or when 4D with leading extent
exactly 1 (collapsed to 3D by dropping the leading axis); any other rank,
or a 4D array with a different leading extent, fails with the shape error. -/
theorem subvolume_rank_acceptance (arr : NpArr) :
    (arr.shape.length = 3 → coerce_subvolume arr = .ok arr) ∧
    (arr.shape.length = 4 → arr.shape.headD 0 = 1 →
      coerce_subvolume arr = .ok ⟨arr.shape.tail, fun idx => arr.data (0 :: idx)⟩ ∧
      arr.shape.tail.length = 3) ∧
    (arr.shape.length ≠ 3 → ¬ (arr.shape.length = 4 ∧ arr.shape.headD 0 = 1) →
      coerce_subvolume arr = .error .shapeErr) := by
  refine ⟨?_, ?_, ?_⟩
  · intro h3
    simp only [coerce_subvolume, if_pos h3]
  · intro h4 hhead
    have h3 : ¬ arr.shape.length = 3 := by omega
    constructor
    · simp only [coerce_subvolume, if_neg h3, if_pos (And.intro h4 hhead)]
    · simp [List.length_tail, h4]
  · intro h3 h41
    simp only [coerce_subvolume, if_neg h3, if_neg h41]

/-- Witness for C6: a `(1, 2, 2, 2)` array collapses to `(2, 2, 2)`, and a
2D array is rejected. -/
theorem subvolume_rank_acceptance_witness :
    (coerce_subvolume ⟨[1, 2, 2, 2], fun _ => 0⟩ = .ok ⟨[2, 2, 2], fun _ => 0⟩ ∧
      ([2, 2, 2] : List ℕ).length = 3) ∧
    coerce_subvolume ⟨[5, 5], fun _ => 0⟩ = .error .shapeErr :=
  ⟨(subvolume_rank_acceptance ⟨[1, 2, 2, 2], fun _ => 0⟩).2.1 rfl rfl,
   (subvolume_rank_acceptance ⟨[5, 5], fun _ => 0⟩).2.2 (by decide) (by decide)⟩

/-! ### Metadata tables: `write_projected_images` (source lines 68-96) and
`run_extraction_mode` (source lines 206-271) -/

/-- A cell of a written STAR table: a coordinate value or a name/path. -/
inductive Cell where
  | num (q : ℚ)
  | str (s : String)
  deriving DecidableEq

/-- A written STAR table: named columns in insertion order. -/
abbrev Table := List (String × List Cell)

/-- The cells of the named column, if present. -/
def colCells (tbl : Table) (name : String) : Option (List Cell) :=
  List.lookup name tbl

/-- `Path(file).name`: the part of a path after its last slash. -/
def pathNameAux (acc : List Char) : List Char → List Char
  | [] => acc.reverse
  | c :: cs => if c = '/' then pathNameAux [] cs else pathNameAux (c :: acc) cs

/-- `Path(file).name` for the POSIX paths the script builds. -/
def pathName (s : String) : String :=
  String.mk (pathNameAux [] s.data)

/-- The 3D STAR table built in `run_extraction_mode` (source lines 259-266). -/
def star3dTable (coords : List Coord) (files tomonames : List String) : Table :=
  [("rlnCoordinateX", coords.map (fun c => Cell.num c.1)),
   ("rlnCoordinateY", coords.map (fun c => Cell.num c.2.1)),
   ("rlnCoordinateZ", coords.map (fun c => Cell.num c.2.2)),
   ("rlnImageName", files.map Cell.str),
   ("rlnTomoName", tomonames.map Cell.str)]

/-- Python `zip(a, b, c)`: truncating three-way zip. -/
def zip3 {α β γ : Type} (a : List α) (b : List β) (c : List γ) : List (α × β × γ) :=
  a.zip (b.zip c)

/-- The loop of `write_projected_images` (source lines 84-94): one row per
zipped (subvolume, coordinate, file) triple, projecting the subvolume
(whose failure aborts the run), with the 2D image path
`2D_projections/2D_<basename>` and the micrograph name `tomonames[i]`
when `i` is in range, else the empty string. -/
def build2dRows (tomonames : List String) (n : ℤ) :
    List (NpArr × Coord × String) → ℕ → Except PyErr (List (Coord × String × String))
  | [], _ => .ok []
  | (subvolume, line, file) :: rest, i =>
    match project_subvolumes_to_2d subvolume n with
    | .error e => .error e
    | .ok _ =>
      match build2dRows tomonames n rest (i + 1) with
      | .error e => .error e
      | .ok rows =>
        .ok ((line, "2D_projections/2D_" ++ pathName file, tomonames.getD i "") :: rows)

/-- The 2D STAR table built from the accumulated rows (source lines 77-95). -/
def star2dTable (rows : List (Coord × String × String)) : Table :=
  [("rlnCoordinateX", rows.map (fun r => Cell.num r.1.1)),
   ("rlnCoordinateY", rows.map (fun r => Cell.num r.1.2.1)),
   ("rlnCoordinateZ", rows.map (fun r => Cell.num r.1.2.2)),
   ("rlnImageName", rows.map (fun r => Cell.str r.2.1)),
   ("rlnMicrographName", rows.map (fun r => Cell.str r.2.2))]

/-- `write_projected_images` (source lines 68-96), returning the written
2D STAR table. -/
def write_projected_images (subvolumes : List NpArr) (n : ℤ) (coords : List Coord)
    (written_files tomonames : List String) : Except PyErr Table :=
  match build2dRows tomonames n (zip3 subvolumes coords written_files) 0 with
  | .error e => .error e
  | .ok rows => .ok (star2dTable rows)

/-- One extraction-mode input: (tomogram name, volume, coordinate list). -/
abbrev ExtractionInput := String × Tomogram × List Coord

/-- The records `extract_and_write` returns for one tomogram
(source line 242). -/
def writtenFor (pid : String) (box_size : ℕ) (t : ExtractionInput) :
    List (String × Coord) :=
  extract_and_write t.2.2 t.2.1 t.1 pid box_size

/-- `all_written_files` of `run_extraction_mode` (source line 244). -/
def allWrittenFiles (inputs : List ExtractionInput) (pid : String) (box_size : ℕ) :
    List String :=
  (inputs.map (fun t => (writtenFor pid box_size t).map
    (fun f => "3D_subvolumes/" ++ f.1))).flatten

/-- `all_coords` of `run_extraction_mode` (source line 245). -/
def allCoords (inputs : List ExtractionInput) (pid : String) (box_size : ℕ) :
    List Coord :=
  (inputs.map (fun t => (writtenFor pid box_size t).map (fun f => f.2))).flatten

/-- `all_tomonames` of `run_extraction_mode` (source line 246). -/
def allTomonames (inputs : List ExtractionInput) (pid : String) (box_size : ℕ) :
    List String :=
  (inputs.map (fun t => List.replicate (writtenFor pid box_size t).length t.1)).flatten

/-- The 3D STAR table written by `run_extraction_mode`. -/
def extraction_star3d (inputs : List ExtractionInput) (pid : String) (box_size : ℕ) :
    Table :=
  star3dTable (allCoords inputs pid box_size) (allWrittenFiles inputs pid box_size)
    (allTomonames inputs pid box_size)

lemma enumFrom_map_snd {α : Type} (i : ℕ) (l : List α) :
    (List.enumFrom i l).map (fun p => p.2) = l := by
  induction l generalizing i with
  | nil => rfl
  | cons a rest ih => simp [List.enumFrom, ih]

lemma writtenFor_coords (pid : String) (box_size : ℕ) (t : ExtractionInput) :
    (writtenFor pid box_size t).map (fun f => f.2) =
      t.2.2.filter (accepted t.2.1 box_size) := by
  rw [writtenFor, extract_and_write, extract_go_eq, List.map_map]
  exact enumFrom_map_snd 1 _

lemma writtenFor_files (pid : String) (box_size : ℕ) (t : ExtractionInput) :
    (writtenFor pid box_size t).map (fun f => "3D_subvolumes/" ++ f.1) =
      (List.enumFrom 1 (t.2.2.filter (accepted t.2.1 box_size))).map
        (fun q => "3D_subvolumes/" ++ subvolFilename t.1 pid q.1) := by
  rw [writtenFor, extract_and_write, extract_go_eq, List.map_map]
  rfl

lemma star3d_colX (coords : List Coord) (files tomonames : List String) :
    colCells (star3dTable coords files tomonames) "rlnCoordinateX" =
      some (coords.map (fun c => Cell.num c.1)) := rfl

lemma star3d_colImage (coords : List Coord) (files tomonames : List String) :
    colCells (star3dTable coords files tomonames) "rlnImageName" =
      some (files.map Cell.str) := rfl

lemma star2d_colImage (rows : List (Coord × String × String)) :
    colCells (star2dTable rows) "rlnImageName" =
      some (rows.map (fun r => Cell.str r.2.1)) := rfl

lemma star2d_colMicrograph (rows : List (Coord × String × String)) :
    colCells (star2dTable rows) "rlnMicrographName" =
      some (rows.map (fun r => Cell.str r.2.2)) := rfl

lemma project_ok_of_rank3 (a : NpArr) (n : ℤ) (h3 : a.shape.length = 3) (hn : 1 ≤ n) :
    ∃ r, project_subvolumes_to_2d a n = .ok r := by
  obtain ⟨shape, data⟩ := a
  rcases shape with _ | ⟨z, _ | ⟨h, _ | ⟨w, _ | rest⟩⟩⟩
  · simp at h3
  · simp at h3
  · simp at h3
  · exact ⟨_, by simp only [project_subvolumes_to_2d, if_neg (by omega : ¬ n ≤ 0)]; rfl⟩
  · simp at h3

lemma build2dRows_ok (tomonames : List String) (n : ℤ)
    (l : List (NpArr × Coord × String)) (i : ℕ)
    (h3 : ∀ x ∈ l, x.1.shape.length = 3) (hn : 1 ≤ n) :
    build2dRows tomonames n l i =
      .ok ((List.enumFrom i l).map (fun p =>
        (p.2.2.1, "2D_projections/2D_" ++ pathName p.2.2.2, tomonames.getD p.1 ""))) := by
  induction l generalizing i with
  | nil => rfl
  | cons x rest ih =>
    obtain ⟨sv, line, file⟩ := x
    have hsv : ((sv, line, file) : NpArr × Coord × String).1.shape.length = 3 :=
      h3 _ (List.mem_cons_self _ _)
    obtain ⟨r, hr⟩ := project_ok_of_rank3 sv n hsv hn
    have hrest := ih (i + 1) (fun y hy => h3 y (List.mem_cons_of_mem _ hy))
    simp only [build2dRows, hr, hrest, List.enumFrom, List.map_cons]

lemma build2dRows_ok_inv (tomonames : List String) (n : ℤ)
    (l : List (NpArr × Coord × String)) (i : ℕ) (rows : List (Coord × String × String))
    (h : build2dRows tomonames n l i = .ok rows) :
    rows = (List.enumFrom i l).map (fun p =>
      (p.2.2.1, "2D_projections/2D_" ++ pathName p.2.2.2, tomonames.getD p.1 "")) := by
  induction l generalizing i rows with
  | nil =>
    simp only [build2dRows] at h
    injection h with h
    rw [← h]
    rfl
  | cons x rest ih =>
    obtain ⟨sv, line, file⟩ := x
    cases hp : project_subvolumes_to_2d sv n with
    | error e => rw [build2dRows, hp] at h; cases h
    | ok r =>
      cases hb : build2dRows tomonames n rest (i + 1) with
      | error e => rw [build2dRows, hp, hb] at h; cases h
      | ok rows2 =>
        rw [build2dRows, hp, hb] at h
        injection h with h
        rw [← h, ih _ _ hb]
        rfl

/-- C9: the 2D writer tolerates a name list shorter than the subvolume
list: it succeeds, each row indexes the name list with an empty-string
default, and the number of rows equals the minimum of the subvolume,
coordinate, and file-name list lengths. -/
theorem projection_writer_truncates (subvolumes : List NpArr) (n : ℤ)
    (coords : List Coord) (written_files tomonames : List String)
    (h3 : ∀ sv ∈ subvolumes, sv.shape.length = 3) (hn : 1 ≤ n) :
    ∃ tbl, write_projected_images subvolumes n coords written_files tomonames = .ok tbl ∧
      colCells tbl "rlnMicrographName" =
        some ((List.enumFrom 0 (zip3 subvolumes coords written_files)).map
          (fun p => Cell.str (tomonames.getD p.1 ""))) ∧
      (zip3 subvolumes coords written_files).length =
        min subvolumes.length (min coords.length written_files.length) ∧
      (∀ i, tomonames.length ≤ i → tomonames.getD i "" = "") := by
  have hz3 : ∀ x ∈ zip3 subvolumes coords written_files, x.1.shape.length = 3 := by
    intro x hx
    exact h3 x.1 (List.of_mem_zip hx).1
  have hrows := build2dRows_ok tomonames n (zip3 subvolumes coords written_files) 0 hz3 hn
  refine ⟨star2dTable ((List.enumFrom 0 (zip3 subvolumes coords written_files)).map
      (fun p => (p.2.2.1, "2D_projections/2D_" ++ pathName p.2.2.2, tomonames.getD p.1 ""))),
    ?_, ?_, ?_, ?_⟩
  · simp only [write_projected_images, hrows]
  · rw [star2d_colMicrograph, List.map_map]
    rfl
  · simp [zip3, List.length_zip]
  · intro i hi
    exact List.getD_eq_default _ _ hi

/-- Witness for C9: two subvolumes, two coordinates, two files, but a
single-element name list. -/
theorem projection_writer_truncates_witness :
    ∃ tbl, write_projected_images
        [⟨[1, 1, 1], fun _ => 0⟩, ⟨[1, 1, 1], fun _ => 0⟩] 1
        [((0 : ℚ), (0 : ℚ), (0 : ℚ)), ((1 : ℚ), (1 : ℚ), (1 : ℚ))]
        ["a.mrc", "b.mrc"] ["t"] = .ok tbl ∧
      colCells tbl "rlnMicrographName" =
        some ((List.enumFrom 0 (zip3
            [(⟨[1, 1, 1], fun _ => 0⟩ : NpArr), ⟨[1, 1, 1], fun _ => 0⟩]
            [((0 : ℚ), (0 : ℚ), (0 : ℚ)), ((1 : ℚ), (1 : ℚ), (1 : ℚ))]
            ["a.mrc", "b.mrc"])).map
          (fun p => Cell.str ((["t"] : List String).getD p.1 ""))) ∧
      (zip3 [(⟨[1, 1, 1], fun _ => 0⟩ : NpArr), ⟨[1, 1, 1], fun _ => 0⟩]
        [((0 : ℚ), (0 : ℚ), (0 : ℚ)), ((1 : ℚ), (1 : ℚ), (1 : ℚ))]
        ["a.mrc", "b.mrc"]).length = min 2 (min 2 2) ∧
      (∀ i, (["t"] : List String).length ≤ i → (["t"] : List String).getD i "" = "") :=
  projection_writer_truncates
    [⟨[1, 1, 1], fun _ => 0⟩, ⟨[1, 1, 1], fun _ => 0⟩] 1
    [((0 : ℚ), (0 : ℚ), (0 : ℚ)), ((1 : ℚ), (1 : ℚ), (1 : ℚ))]
    ["a.mrc", "b.mrc"] ["t"]
    (by intro sv hsv
        simp only [List.mem_cons, List.not_mem_nil, or_false] at hsv
        rcases hsv with h | h <;> subst h <;> rfl)
    (by decide)

/-- C8: the 3D metadata table has exactly the columns `rlnCoordinateX/Y/Z`,
`rlnImageName` and `rlnTomoName`, one row per accepted subvolume carrying
its original rational input coordinate and an image path prefixed with the
`3D_subvolumes/` subdirectory; the 2D table has the same coordinate and
image-path columns but `rlnMicrographName` instead of `rlnTomoName`, with
image paths prefixed with the `2D_projections/` subdirectory. -/
theorem star_tables_columns (inputs : List ExtractionInput) (pid : String) (box_size : ℕ)
    (subvolumes : List NpArr) (n : ℤ) (coords2 : List Coord)
    (written_files2 tomonames2 : List String) (tbl2 : Table)
    (h2 : write_projected_images subvolumes n coords2 written_files2 tomonames2 = .ok tbl2) :
    (extraction_star3d inputs pid box_size).map Prod.fst =
      ["rlnCoordinateX", "rlnCoordinateY", "rlnCoordinateZ", "rlnImageName", "rlnTomoName"] ∧
    colCells (extraction_star3d inputs pid box_size) "rlnCoordinateX" =
      some (((inputs.map (fun t => t.2.2.filter (accepted t.2.1 box_size))).flatten).map
        (fun c => Cell.num c.1)) ∧
    colCells (extraction_star3d inputs pid box_size) "rlnImageName" =
      some ((inputs.map (fun t =>
        (List.enumFrom 1 (t.2.2.filter (accepted t.2.1 box_size))).map
          (fun q => Cell.str ("3D_subvolumes/" ++ subvolFilename t.1 pid q.1)))).flatten) ∧
    tbl2.map Prod.fst =
      ["rlnCoordinateX", "rlnCoordinateY", "rlnCoordinateZ", "rlnImageName",
       "rlnMicrographName"] ∧
    colCells tbl2 "rlnImageName" =
      some ((List.enumFrom 0 (zip3 subvolumes coords2 written_files2)).map
        (fun p => Cell.str ("2D_projections/2D_" ++ pathName p.2.2.2))) := by
  obtain ⟨rows, hrows, htbl⟩ :
      ∃ rows, build2dRows tomonames2 n (zip3 subvolumes coords2 written_files2) 0 = .ok rows ∧
        tbl2 = star2dTable rows := by
    revert h2
    unfold write_projected_images
    cases hb : build2dRows tomonames2 n (zip3 subvolumes coords2 written_files2) 0 with
    | error e => intro h2; cases h2
    | ok rows => intro h2; injection h2 with h2; exact ⟨rows, rfl, h2.symm⟩
  subst htbl
  refine ⟨rfl, ?_, ?_, rfl, ?_⟩
  · rw [extraction_star3d, star3d_colX]
    have hc : allCoords inputs pid box_size =
        (inputs.map (fun t => t.2.2.filter (accepted t.2.1 box_size))).flatten := by
      simp only [allCoords, writtenFor_coords]
    rw [hc]
  · rw [extraction_star3d, star3d_colImage]
    have hf : allWrittenFiles inputs pid box_size =
        (inputs.map (fun t => (List.enumFrom 1 (t.2.2.filter (accepted t.2.1 box_size))).map
          (fun q => "3D_subvolumes/" ++ subvolFilename t.1 pid q.1))).flatten := by
      simp only [allWrittenFiles, writtenFor_files]
    rw [hf, List.map_flatten, List.map_map]
    simp only [Function.comp_def, List.map_map]
  · rw [star2d_colImage, build2dRows_ok_inv tomonames2 n _ 0 rows hrows, List.map_map]
    rfl

/-- Witness for C8: one tomogram with one accepted coordinate, and a
one-row 2D table. -/
theorem star_tables_columns_witness :
    (extraction_star3d [("t", ⟨4, 4, 4, fun _ _ _ => 0⟩, [((2 : ℚ), (2 : ℚ), (2 : ℚ))])]
        "p" 2).map Prod.fst =
      ["rlnCoordinateX", "rlnCoordinateY", "rlnCoordinateZ", "rlnImageName", "rlnTomoName"] ∧
    colCells (extraction_star3d [("t", ⟨4, 4, 4, fun _ _ _ => 0⟩,
        [((2 : ℚ), (2 : ℚ), (2 : ℚ))])] "p" 2) "rlnCoordinateX" =
      some ((([("t", (⟨4, 4, 4, fun _ _ _ => 0⟩ : Tomogram),
          [((2 : ℚ), (2 : ℚ), (2 : ℚ))])].map
            (fun t => t.2.2.filter (accepted t.2.1 2))).flatten).map
        (fun c => Cell.num c.1)) ∧
    colCells (extraction_star3d [("t", ⟨4, 4, 4, fun _ _ _ => 0⟩,
        [((2 : ℚ), (2 : ℚ), (2 : ℚ))])] "p" 2) "rlnImageName" =
      some (([("t", (⟨4, 4, 4, fun _ _ _ => 0⟩ : Tomogram),
          [((2 : ℚ), (2 : ℚ), (2 : ℚ))])].map
            (fun t => (List.enumFrom 1 (t.2.2.filter (accepted t.2.1 2))).map
              (fun q => Cell.str ("3D_subvolumes/" ++ subvolFilename t.1 "p" q.1)))).flatten) ∧
    (star2dTable [(((2 : ℚ), (2 : ℚ), (2 : ℚ)), "2D_projections/2D_t_p_0001.mrc",
        "t")]).map Prod.fst =
      ["rlnCoordinateX", "rlnCoordinateY", "rlnCoordinateZ", "rlnImageName",
       "rlnMicrographName"] ∧
    colCells (star2dTable [(((2 : ℚ), (2 : ℚ), (2 : ℚ)), "2D_projections/2D_t_p_0001.mrc",
        "t")]) "rlnImageName" =
      some ((List.enumFrom 0 (zip3 [(⟨[2, 2, 2], fun _ => 0⟩ : NpArr)]
          [((2 : ℚ), (2 : ℚ), (2 : ℚ))] ["3D_subvolumes/t_p_0001.mrc"])).map
        (fun p => Cell.str ("2D_projections/2D_" ++ pathName p.2.2.2))) :=
  star_tables_columns
    [("t", ⟨4, 4, 4, fun _ _ _ => 0⟩, [((2 : ℚ), (2 : ℚ), (2 : ℚ))])] "p" 2
    [⟨[2, 2, 2], fun _ => 0⟩] 1 [((2 : ℚ), (2 : ℚ), (2 : ℚ))]
    ["3D_subvolumes/t_p_0001.mrc"] ["t"]
    (star2dTable [(((2 : ℚ), (2 : ℚ), (2 : ℚ)), "2D_projections/2D_t_p_0001.mrc", "t")])
    (by rfl)

/-! ### Coordinate files: `get_coordinates` (source lines 138-148) -/

/-- `float(lsplitted[i])` for one whitespace token (source lines 144-146):
the `IndexError` of a missing token, then the `ValueError` of an
unparseable one.  The Python `float` builtin is an external collaborator,
passed in as a partial parse function. -/
def parse_tok (pyFloat : String → Option ℚ) (toks : List String) (i : ℕ) :
    Except PyErr ℚ :=
  match toks.get? i with
  | none => .error .indexErr
  | some t =>
    match pyFloat t with
    | none => .error .valueErr
    | some q => .ok q

/-- One line of the loop body (source lines 143-147): the first three
whitespace-separated tokens parsed as floats, in order. -/
def parse_line (pyFloat : String → Option ℚ) (toks : List String) : Except PyErr Coord :=
  match parse_tok pyFloat toks 0 with
  | .error e => .error e
  | .ok x =>
    match parse_tok pyFloat toks 1 with
    | .error e => .error e
    | .ok y =>
      match parse_tok pyFloat toks 2 with
      | .error e => .error e
      | .ok z => .ok (x, y, z)

/-- `get_coordinates` (source lines 138-148) over the whitespace-split
lines of the coordinate file: the first raised error aborts the whole
read. -/
def get_coordinates (pyFloat : String → Option ℚ) :
    List (List String) → Except PyErr (List Coord)
  | [] => .ok []
  | l :: rest =>
    match parse_line pyFloat l with
    | .error e => .error e
    | .ok c =>
      match get_coordinates pyFloat rest with
      | .error e => .error e
      | .ok cs => .ok (c :: cs)

/-- A line parses iff it has at least three tokens and the first three
parse as floats. -/
def lineGood (pyFloat : String → Option ℚ) (toks : List String) : Prop :=
  3 ≤ toks.length ∧ (pyFloat (toks.getD 0 "")).isSome = true ∧
    (pyFloat (toks.getD 1 "")).isSome = true ∧ (pyFloat (toks.getD 2 "")).isSome = true

/-- The coordinate triple a good line yields. -/
def lineVal (pyFloat : String → Option ℚ) (toks : List String) : Coord :=
  ((pyFloat (toks.getD 0 "")).getD 0, (pyFloat (toks.getD 1 "")).getD 0,
    (pyFloat (toks.getD 2 "")).getD 0)

lemma parse_line_of_good (pyFloat : String → Option ℚ) (toks : List String)
    (h : lineGood pyFloat toks) :
    parse_line pyFloat toks = .ok (lineVal pyFloat toks) := by
  obtain ⟨hlen, h0, h1, h2⟩ := h
  rcases toks with _ | ⟨a, _ | ⟨b, _ | ⟨c, rest⟩⟩⟩
  · simp at hlen
  · simp at hlen
  · simp at hlen
  · simp only [List.getD, List.getElem?_cons_zero, List.getElem?_cons_succ,
      Option.getD_some, List.get?_cons_zero, List.get?_cons_succ] at h0 h1 h2 ⊢
    obtain ⟨x, hx⟩ := Option.isSome_iff_exists.mp h0
    obtain ⟨y, hy⟩ := Option.isSome_iff_exists.mp h1
    obtain ⟨z, hz⟩ := Option.isSome_iff_exists.mp h2
    simp [parse_line, parse_tok, lineVal, hx, hy, hz]

lemma parse_line_of_bad (pyFloat : String → Option ℚ) (toks : List String)
    (h : ¬ lineGood pyFloat toks) :
    ∃ e, parse_line pyFloat toks = .error e := by
  rcases toks with _ | ⟨a, _ | ⟨b, _ | ⟨c, rest⟩⟩⟩
  · exact ⟨.indexErr, by cases hpa : pyFloat "" <;> simp [parse_line, parse_tok]⟩
  · cases hpa : pyFloat a with
    | none => exact ⟨.valueErr, by simp [parse_line, parse_tok, hpa]⟩
    | some x => exact ⟨.indexErr, by simp [parse_line, parse_tok, hpa]⟩
  · cases hpa : pyFloat a with
    | none => exact ⟨.valueErr, by simp [parse_line, parse_tok, hpa]⟩
    | some x =>
      cases hpb : pyFloat b with
      | none => exact ⟨.valueErr, by simp [parse_line, parse_tok, hpa, hpb]⟩
      | some y => exact ⟨.indexErr, by simp [parse_line, parse_tok, hpa, hpb]⟩
  · cases hpa : pyFloat a with
    | none => exact ⟨.valueErr, by simp [parse_line, parse_tok, hpa]⟩
    | some x =>
      cases hpb : pyFloat b with
      | none => exact ⟨.valueErr, by simp [parse_line, parse_tok, hpa, hpb]⟩
      | some y =>
        cases hpc : pyFloat c with
        | none => exact ⟨.valueErr, by simp [parse_line, parse_tok, hpa, hpb, hpc]⟩
        | some z =>
          exfalso
          apply h
          refine ⟨by simp, ?_, ?_, ?_⟩ <;>
            simp [List.getD, hpa, hpb, hpc]

lemma parse_line_take3 (pyFloat : String → Option ℚ) (toks : List String) :
    parse_line pyFloat (toks.take 3) = parse_line pyFloat toks := by
  rcases toks with _ | ⟨a, _ | ⟨b, _ | ⟨c, rest⟩⟩⟩ <;> rfl

/-- C10: the coordinate reader parses only the first three tokens of each
line (so trailing junk is harmless: truncating every line to three tokens
changes nothing); it succeeds with one triple per line exactly when every
line has at least three tokens whose first three all parse as floats, and
any short line or unparseable leading token fails the entire read. -/
theorem coordinate_reader_strict (pyFloat : String → Option ℚ)
    (lines : List (List String)) :
    get_coordinates pyFloat (lines.map (List.take 3)) =
      get_coordinates pyFloat lines ∧
    ((∀ toks ∈ lines, lineGood pyFloat toks) →
      get_coordinates pyFloat lines = .ok (lines.map (lineVal pyFloat))) ∧
    ((∃ toks ∈ lines, ¬ lineGood pyFloat toks) →
      ∃ e, get_coordinates pyFloat lines = .error e) := by
  refine ⟨?_, ?_, ?_⟩
  · induction lines with
    | nil => rfl
    | cons l rest ih =>
      simp only [List.map_cons, get_coordinates, parse_line_take3, ih]
  · intro hall
    induction lines with
    | nil => rfl
    | cons l rest ih =>
      have hl := parse_line_of_good pyFloat l (hall l (List.mem_cons_self _ _))
      have hrest := ih (fun t ht => hall t (List.mem_cons_of_mem _ ht))
      simp only [get_coordinates, hl, hrest, List.map_cons]
  · intro hbad
    induction lines with
    | nil =>
      obtain ⟨t, ht, _⟩ := hbad
      exact absurd ht (List.not_mem_nil t)
    | cons l rest ih =>
      by_cases hl : lineGood pyFloat l
      · obtain ⟨t, ht, hbt⟩ := hbad
        rcases List.mem_cons.mp ht with heq | hmem
        · exact absurd hl (heq ▸ hbt)
        · obtain ⟨e, he⟩ := ih ⟨t, hmem, hbt⟩
          exact ⟨e, by simp only [get_coordinates, parse_line_of_good pyFloat l hl, he]⟩
      · obtain ⟨e, he⟩ := parse_line_of_bad pyFloat l hl
        exact ⟨e, by simp only [get_coordinates, he]⟩

/-- Witness for C10: a parse function rejecting `"bad"`, one file whose
single line has three good tokens plus trailing junk, and one file with a
bad token. -/
theorem coordinate_reader_strict_witness :
    get_coordinates (fun s => if s = "bad" then none else some 1)
        ([["1", "2", "3", "junk"]].map (List.take 3)) =
      get_coordinates (fun s => if s = "bad" then none else some 1)
        [["1", "2", "3", "junk"]] ∧
    get_coordinates (fun s => if s = "bad" then none else some 1)
        [["1", "2", "3", "junk"]] =
      .ok ([["1", "2", "3", "junk"]].map
        (lineVal (fun s => if s = "bad" then none else some 1))) ∧
    (∃ e, get_coordinates (fun s => if s = "bad" then none else some 1)
        [["1", "bad", "3"]] = .error e) :=
  ⟨(coordinate_reader_strict (fun s => if s = "bad" then none else some 1)
      [["1", "2", "3", "junk"]]).1,
   (coordinate_reader_strict (fun s => if s = "bad" then none else some 1)
      [["1", "2", "3", "junk"]]).2.1
     (by intro toks ht
         simp only [List.mem_singleton] at ht
         subst ht
         refine ⟨by decide, ?_, ?_, ?_⟩ <;> decide),
   (coordinate_reader_strict (fun s => if s = "bad" then none else some 1)
      [["1", "bad", "3"]]).2.2
     ⟨["1", "bad", "3"], List.mem_singleton.mpr rfl,
      by intro hgood
         have := hgood.2.2.1
         simp [List.getD] at this⟩⟩

end TomoScripts
